import Mathlib

/-!
Shallow embedding of the request-gating layer of the income-verification
server (Express server in the repository, plus the Vercel serverless
variant of the analyze handler), and proofs about its rate limiting,
session handling, input validation and FPL computation.

Time is modelled as a `Nat` millisecond timestamp passed explicitly
(the source reads `Date.now()`); the in-memory `Map` stores are modelled
as functions from keys to optional entries.
-/

namespace IncomeVerifier

/-- A rate-limit store entry: `{ count, resetAt }` as stored in the
in-memory `Map`s (`authAttempts`, `analyzeAttempts`, `globalApiAttempts`). -/
structure RateLimitEntry where
  count : Nat
  resetAt : Nat
deriving Repr, DecidableEq

/-- A rate-limit policy: `{ maxAttempts, windowMs }`. -/
structure RateLimitPolicy where
  maxAttempts : Nat
  windowMs : Nat
deriving Repr, DecidableEq

/-- `AUTH_RATE_LIMIT = { maxAttempts: 5, windowMs: 15 * 60 * 1000 }`. -/
def AUTH_RATE_LIMIT : RateLimitPolicy := ⟨5, 15 * 60 * 1000⟩

/-- `ANALYZE_RATE_LIMIT = { maxAttempts: 10, windowMs: 60 * 60 * 1000 }`. -/
def ANALYZE_RATE_LIMIT : RateLimitPolicy := ⟨10, 60 * 60 * 1000⟩

/-- `GLOBAL_API_RATE_LIMIT = { maxAttempts: 100, windowMs: 60 * 1000 }`. -/
def GLOBAL_API_RATE_LIMIT : RateLimitPolicy := ⟨100, 60 * 1000⟩

/-- An in-memory rate-limit store (`Map<string, RateLimitEntry>`). -/
def Store : Type := String → Option RateLimitEntry

/-- `store.set(key, entry)`. -/
def Store.set (s : Store) (k : String) (e : RateLimitEntry) : Store :=
  fun k' => if k' = k then some e else s k'

/-- `store.delete(key)`. -/
def Store.del (s : Store) (k : String) : Store :=
  fun k' => if k' = k then none else s k'

/-- An empty store (fresh `new Map()`). -/
def Store.empty : Store := fun _ => none

/-- The result record of `checkRateLimit`:
`{ allowed, remaining, retryAfter? }`.  `remaining` is an `Int` because
JavaScript subtraction is not truncated. -/
structure RateLimitResult where
  allowed : Bool
  remaining : Int
  retryAfter : Option Nat
deriving Repr, DecidableEq

/-- `Math.ceil(ms / 1000)` for a non-negative millisecond count. -/
def ceilSeconds (ms : Nat) : Nat := (ms + 999) / 1000

/-- The generic rate limiter `checkRateLimit(store, key, config)`.
`now` is the `Date.now()` read at the top of the function.  Returns the
result record together with the store after the in-place mutation. -/
def checkRateLimit (store : Store) (key : String) (config : RateLimitPolicy)
    (now : Nat) : RateLimitResult × Store :=
  match store key with
  | none =>
      (⟨true, (config.maxAttempts : Int) - 1, none⟩,
       store.set key ⟨1, now + config.windowMs⟩)
  | some entry =>
      if now > entry.resetAt then
        (⟨true, (config.maxAttempts : Int) - 1, none⟩,
         store.set key ⟨1, now + config.windowMs⟩)
      else if entry.count ≥ config.maxAttempts then
        (⟨false, 0, some (ceilSeconds (entry.resetAt - now))⟩, store)
      else
        (⟨true, (config.maxAttempts : Int) - (entry.count + 1), none⟩,
         store.set key ⟨entry.count + 1, entry.resetAt⟩)

/-- The periodic sweep body for one store: delete every entry with
`now > entry.resetAt`. -/
def sweep (store : Store) (now : Nat) : Store :=
  fun k =>
    match store k with
    | none => none
    | some e => if now > e.resetAt then none else some e

example :
    (checkRateLimit Store.empty "ip" AUTH_RATE_LIMIT 0).1 =
      ⟨true, 4, none⟩ := by decide

example :
    (checkRateLimit Store.empty "ip" AUTH_RATE_LIMIT 0).2 "ip" =
      some ⟨1, 900000⟩ := by decide

example :
    (checkRateLimit (Store.empty.set "ip" ⟨5, 100⟩) "ip" AUTH_RATE_LIMIT 40).1 =
      ⟨false, 0, some 1⟩ := by decide

/-! ### Session store and auth middleware -/

/-- The session store: `Map<token, expiry>`. -/
def SessionStore : Type := String → Option Nat

/-- `sessions.set(token, expiry)`. -/
def SessionStore.set (s : SessionStore) (tok : String) (expiry : Nat) :
    SessionStore :=
  fun t => if t = tok then some expiry else s t

/-- `sessions.delete(token)`. -/
def SessionStore.del (s : SessionStore) (tok : String) : SessionStore :=
  fun t => if t = tok then none else s t

/-- An empty session store. -/
def SessionStore.empty : SessionStore := fun _ => none

/-- `SESSION_TTL = 24 * 60 * 60 * 1000`. -/
def SESSION_TTL : Nat := 24 * 60 * 60 * 1000

/-- Outcome of the `requireAuth` middleware. -/
inductive AuthCheck where
  /-- 401 `{ error: 'Unauthorized' }` (missing or non-Bearer header). -/
  | unauthorized : AuthCheck
  /-- 401 `{ error: 'Session expired' }` (unknown or expired token). -/
  | sessionExpired : AuthCheck
  /-- `next()` was called: the request proceeds with this token. -/
  | ok (token : String) : AuthCheck
deriving Repr, DecidableEq

/-- `authHeader?.startsWith('Bearer ')`, on the character sequence of the
header (the seven-character prefix `Bearer␣`). -/
def startsWithBearer (h : String) : Bool :=
  h.data.take 7 = "Bearer ".data

/-- `authHeader.slice(7)`: the token after the `Bearer ` prefix. -/
def sliceBearer (h : String) : String :=
  ⟨h.data.drop 7⟩

/-- The `requireAuth` middleware.  `authHeader` is
`req.headers.authorization` (`none` when absent), `now` the `Date.now()`
read inside.  Returns the outcome and the session store after the lazy
deletion. -/
def requireAuth (sessions : SessionStore) (authHeader : Option String)
    (now : Nat) : AuthCheck × SessionStore :=
  match authHeader with
  | none => (.unauthorized, sessions)
  | some h =>
      if startsWithBearer h then
        let token := sliceBearer h
        match sessions token with
        | none => (.sessionExpired, sessions.del token)
        | some expiry =>
            if now > expiry then (.sessionExpired, sessions.del token)
            else (.ok token, sessions)
      else (.unauthorized, sessions)

/-- The hourly session sweep: delete every session with `now > expiry`. -/
def sessionSweep (sessions : SessionStore) (now : Nat) : SessionStore :=
  fun t =>
    match sessions t with
    | none => none
    | some expiry => if now > expiry then none else some expiry

example :
    (requireAuth (SessionStore.empty.set "tok" 50) (some "Bearer tok") 50).1 =
      .ok "tok" := by decide

example :
    (requireAuth (SessionStore.empty.set "tok" 50) (some "Bearer tok") 51).1 =
      .sessionExpired := by decide

example :
    (requireAuth (SessionStore.empty.set "tok" 50) (some "tok") 0).1 =
      .unauthorized := by decide

/-! ### The `/api/auth` endpoint -/

/-- Response of the `/api/auth` endpoint, as far as the claims need it:
HTTP status, the `success` flag, the issued token if any, and the
`Retry-After` header if any. -/
structure AuthResponse where
  status : Nat
  success : Bool
  token : Option String
  retryAfter : Option Nat
deriving Repr, DecidableEq

/-- The password-checking tail of the `/api/auth` handler, run after the
rate-limit bookkeeping updated the store to `attempts`: on a match, reset
the caller's rate limit (`authAttempts.delete(clientIp)`) and issue a
session token; otherwise 401 `Invalid password`. -/
def authPasswordPhase (attempts : Store) (sessions : SessionStore)
    (clientIp : String) (password serverPassword : String)
    (newToken : String) (now : Nat) :
    AuthResponse × Store × SessionStore :=
  if password = serverPassword then
    (⟨200, true, some newToken, none⟩, attempts.del clientIp,
     sessions.set newToken (now + SESSION_TTL))
  else
    (⟨401, false, none, none⟩, attempts, sessions)

/-- The `app.post('/api/auth')` handler.  `serverPassword` is
`INCOME_VERIFIER_PASSWORD`, `newToken` the value produced by
`crypto.randomBytes(32).toString('hex')`, `now` the `Date.now()` read at
the top.  Returns the response together with the updated `authAttempts`
store and session store. -/
def authPost (authAttempts : Store) (sessions : SessionStore)
    (clientIp : String) (password serverPassword : String)
    (newToken : String) (now : Nat) :
    AuthResponse × Store × SessionStore :=
  match authAttempts clientIp with
  | some attempt =>
      if now < attempt.resetAt then
        if attempt.count ≥ AUTH_RATE_LIMIT.maxAttempts then
          (⟨429, false, none, some (ceilSeconds (attempt.resetAt - now))⟩,
           authAttempts, sessions)
        else
          authPasswordPhase
            (authAttempts.set clientIp ⟨attempt.count + 1, attempt.resetAt⟩)
            sessions clientIp password serverPassword newToken now
      else
        authPasswordPhase
          (authAttempts.set clientIp ⟨1, now + AUTH_RATE_LIMIT.windowMs⟩)
          sessions clientIp password serverPassword newToken now
  | none =>
      authPasswordPhase
        (authAttempts.set clientIp ⟨1, now + AUTH_RATE_LIMIT.windowMs⟩)
        sessions clientIp password serverPassword newToken now

example :
    (authPost Store.empty SessionStore.empty "ip" "pw" "pw" "tok" 0).1 =
      ⟨200, true, some "tok", none⟩ := by decide

example :
    ((authPost Store.empty SessionStore.empty "ip" "bad" "pw" "tok" 0).2.1
      "ip") = some ⟨1, AUTH_RATE_LIMIT.windowMs⟩ := by decide

example :
    (authPost (Store.empty.set "ip" ⟨5, 100⟩) SessionStore.empty
      "ip" "pw" "pw" "tok" 40).1.status = 429 := by decide

/-! ### Federal Poverty Level schedules

Two code paths compute FPL values: the Express server embeds its own
`FEDERAL_POVERTY_LEVELS` table, while the Vercel serverless handler
(`src/api/analyze.ts`) imports the table from `src/constants.ts`. -/

/-- `FEDERAL_POVERTY_LEVELS` as declared inline in the Express server:
`{1: 15060, 2: 20440, 3: 25820, 4: 31200, 5: 36580, 6: 41960, 7: 47340,
8: 52720}`. -/
def FEDERAL_POVERTY_LEVELS_server (n : Int) : Int :=
  if n = 1 then 15060 else if n = 2 then 20440 else if n = 3 then 25820
  else if n = 4 then 31200 else if n = 5 then 36580 else if n = 6 then 41960
  else if n = 7 then 47340 else if n = 8 then 52720 else 0

/-- `FPL_ADDITIONAL_PERSON_AMOUNT` in the Express server: 5380. -/
def FPL_ADDITIONAL_PERSON_AMOUNT_server : Int := 5380

/-- `FEDERAL_POVERTY_LEVELS` as exported by `src/constants.ts` (used by
the Vercel handler): `{1: 15650, 2: 21150, 3: 26650, 4: 32150, 5: 37650,
6: 43150, 7: 48650, 8: 54150}`. -/
def FEDERAL_POVERTY_LEVELS_constants (n : Int) : Int :=
  if n = 1 then 15650 else if n = 2 then 21150 else if n = 3 then 26650
  else if n = 4 then 32150 else if n = 5 then 37650 else if n = 6 then 43150
  else if n = 7 then 48650 else if n = 8 then 54150 else 0

/-- `FPL_ADDITIONAL_PERSON_AMOUNT` in `src/constants.ts`: 5500. -/
def FPL_ADDITIONAL_PERSON_AMOUNT_constants : Int := 5500

/-- The Express server's `povertyLevel` computation:
`householdSize <= 8 ? FEDERAL_POVERTY_LEVELS[householdSize]
: FEDERAL_POVERTY_LEVELS[8] + FPL_ADDITIONAL_PERSON_AMOUNT * (householdSize - 8)`. -/
def povertyLevelServer (householdSize : Int) : Int :=
  if householdSize ≤ 8 then FEDERAL_POVERTY_LEVELS_server householdSize
  else FEDERAL_POVERTY_LEVELS_server 8 +
    FPL_ADDITIONAL_PERSON_AMOUNT_server * (householdSize - 8)

/-- The Vercel handler's `povertyLevel` computation (same shape, but on
the `src/constants.ts` table). -/
def povertyLevelVercel (householdSize : Int) : Int :=
  if householdSize ≤ 8 then FEDERAL_POVERTY_LEVELS_constants householdSize
  else FEDERAL_POVERTY_LEVELS_constants 8 +
    FPL_ADDITIONAL_PERSON_AMOUNT_constants * (householdSize - 8)

/-! ### The `/api/analyze` endpoint (Express server) -/

/-- One element of the `files` array: `{ mimeType, data }`. -/
structure FileData where
  mimeType : String
  data : String
deriving Repr, DecidableEq

/-- The JSON body of `/api/analyze` as the handler destructures it.
`files = none` models a missing or non-array `files` field;
`householdSize = none` a missing or non-numeric `householdSize`. -/
structure AnalyzeBody where
  files : Option (List FileData)
  householdSize : Option Int
deriving Repr, DecidableEq

/-- Outcome of the awaited external AI call plus the `JSON.parse` of its
text: either the parsed structured result, or a thrown error (network
failure or malformed JSON) carrying an internal message. -/
inductive GeminiOutcome where
  | success (isEligible : Bool) (annualIncome : Int)
      (reasoning documentType : String) : GeminiOutcome
  | failure (internalMessage : String) : GeminiOutcome
deriving Repr, DecidableEq

/-- The enriched 200-response body: the collaborator's fields merged with
the locally computed `householdSize`, `povertyLevel`, `povertyThreshold`. -/
structure AnalysisResult where
  isEligible : Bool
  annualIncome : Int
  reasoning : String
  documentType : String
  householdSize : Int
  povertyLevel : Int
  povertyThreshold : Int
deriving Repr, DecidableEq

/-- The HTTP response of the analyze endpoint as far as the claims need
it: status, the `message`/`error` string of an error body, the
`retryAfter` body field of a 429, and the result body of a 200. -/
structure AnalyzeResponse where
  status : Nat
  message : Option String
  retryAfter : Option Nat
  result : Option AnalysisResult
deriving Repr, DecidableEq

/-- The `app.post('/api/analyze')` handler body (after `requireAuth`).
`apiKey` is `process.env.GEMINI_API_KEY` (`none` when unset), `gemini`
the outcome of the external call, `now` the `Date.now()` read inside
`checkRateLimit`.  Returns the response, whether the external AI
collaborator was called on this request, and the updated
`analyzeAttempts` store. -/
def analyzePost (analyzeAttempts : Store) (clientIp : String)
    (body : AnalyzeBody) (apiKey : Option String) (gemini : GeminiOutcome)
    (now : Nat) : AnalyzeResponse × Bool × Store :=
  let check := checkRateLimit analyzeAttempts clientIp ANALYZE_RATE_LIMIT now
  if check.1.allowed = false then
    (⟨429, some "Analysis rate limit exceeded. Maximum 10 analyses per hour.",
      check.1.retryAfter, none⟩, false, check.2)
  else
    match body.files with
    | none => (⟨400, some "No files provided.", none, none⟩, false, check.2)
    | some files =>
        if files.isEmpty then
          (⟨400, some "No files provided.", none, none⟩, false, check.2)
        else
          match body.householdSize with
          | none =>
              (⟨400, some "Valid household size is required.", none, none⟩,
               false, check.2)
          | some householdSize =>
              if householdSize < 1 then
                (⟨400, some "Valid household size is required.", none, none⟩,
                 false, check.2)
              else
                match apiKey with
                | none =>
                    (⟨500, some "API key not configured", none, none⟩,
                     false, check.2)
                | some _ =>
                    let povertyLevel := povertyLevelServer householdSize
                    let povertyThreshold := povertyLevel * 2
                    match gemini with
                    | .failure _ =>
                        (⟨500,
                          some "Failed to analyze documents. Please try again.",
                          none, none⟩, true, check.2)
                    | .success isEligible annualIncome reasoning documentType =>
                        (⟨200, none, none,
                          some ⟨isEligible, annualIncome, reasoning,
                            documentType, householdSize, povertyLevel,
                            povertyThreshold⟩⟩, true, check.2)

/-- The route composition `app.post('/api/analyze', requireAuth, handler)`:
the middleware's 401s short-circuit the handler.  Returns the response,
the external-call flag, the session store after the middleware and the
`analyzeAttempts` store after the handler. -/
def analyzeRoute (sessions : SessionStore) (analyzeAttempts : Store)
    (authHeader : Option String) (clientIp : String) (body : AnalyzeBody)
    (apiKey : Option String) (gemini : GeminiOutcome) (now : Nat) :
    AnalyzeResponse × Bool × SessionStore × Store :=
  match requireAuth sessions authHeader now with
  | (.unauthorized, sessions') =>
      (⟨401, some "Unauthorized", none, none⟩, false, sessions',
       analyzeAttempts)
  | (.sessionExpired, sessions') =>
      (⟨401, some "Session expired", none, none⟩, false, sessions',
       analyzeAttempts)
  | (.ok _, sessions') =>
      let r := analyzePost analyzeAttempts clientIp body apiKey gemini now
      (r.1, r.2.1, sessions', r.2.2)

/-- The catch block of the Vercel handler `src/api/analyze.ts`: the
message of the caught error is interpolated into the 500 response body,
`Failed to analyze documents: ${errorMessage}`. -/
def vercelCatchResponse (errorMessage : String) : Nat × String :=
  (500, "Failed to analyze documents: " ++ errorMessage)

example : povertyLevelServer 9 = 58100 := by decide

example : povertyLevelVercel 9 = 59650 := by decide

example :
    (analyzePost Store.empty "ip" ⟨some [⟨"image/png", "zz"⟩], some 4⟩
      (some "key") (.success true 20000 "r" "W-2") 0).1.status = 200 := by
  decide

/-! ### Iterated checks -/

/-- Run `checkRateLimit` once per element of `times`, in order, returning
the per-call results together with the final store. -/
def runChecks (store : Store) (key : String) (config : RateLimitPolicy) :
    List Nat → List RateLimitResult × Store
  | [] => ([], store)
  | t :: ts =>
      let r := checkRateLimit store key config t
      let rest := runChecks r.2 key config ts
      (r.1 :: rest.1, rest.2)

lemma Store.set_same (s : Store) (k : String) (e : RateLimitEntry) :
    (s.set k e) k = some e := by
  simp [Store.set]

/-- Checks performed strictly inside an entry's window increment its count
one by one and each return `allowed` with the matching `remaining`. -/
lemma runChecks_inWindow (key : String) (config : RateLimitPolicy)
    (reset : Nat) (ts : List Nat) :
    ∀ (store : Store) (c : Nat),
      store key = some ⟨c, reset⟩ →
      (∀ u ∈ ts, u ≤ reset) →
      c + ts.length ≤ config.maxAttempts →
      (runChecks store key config ts).2 key =
          some ⟨c + ts.length, reset⟩ ∧
        ∀ i, i < ts.length →
          ((runChecks store key config ts).1).get? i =
            some ⟨true, (config.maxAttempts : Int) - (c + i + 1), none⟩ := by
  induction ts with
  | nil =>
      intro store c h _ _
      simpa [runChecks] using h
  | cons t ts ih =>
      intro store c h hu hc
      have hnot : ¬ reset < t := Nat.not_lt.mpr (hu t (by simp))
      have hcount : ¬ config.maxAttempts ≤ c := by
        simp only [List.length_cons] at hc; omega
      have hstep :
          checkRateLimit store key config t =
            (⟨true, (config.maxAttempts : Int) - (c + 1), none⟩,
             store.set key ⟨c + 1, reset⟩) := by
        simp [checkRateLimit, h, hnot, hcount]
      have ihr := ih (store.set key ⟨c + 1, reset⟩) (c + 1)
        (Store.set_same _ _ _)
        (fun u hu' => hu u (by simp [hu']))
        (by simp only [List.length_cons] at hc; omega)
      constructor
      · show (runChecks _ key config (t :: ts)).2 key = _
        simp only [runChecks, hstep]
        rw [ihr.1, List.length_cons,
          show c + 1 + ts.length = c + (ts.length + 1) from by omega]
      · intro i hi
        simp only [runChecks, hstep]
        match i with
        | 0 =>
            simp only [List.get?, Option.some.injEq,
              RateLimitResult.mk.injEq]
            refine ⟨trivial, ?_, trivial⟩
            push_cast
            ring
        | i + 1 =>
            simp only [List.get?]
            rw [ihr.2 i (by simp only [List.length_cons] at hi; omega)]
            simp only [Option.some.injEq, RateLimitResult.mk.injEq]
            refine ⟨trivial, ?_, trivial⟩
            push_cast
            ring

/-- From a fresh key, `N ≤ maxAttempts` checks inside one window are all
allowed, the `i`-th (0-based) with `remaining = maxAttempts - (i+1)`, and
leave the entry at `count = N`. -/
lemma runChecks_fresh (key : String) (config : RateLimitPolicy)
    (t : Nat) (ts : List Nat) (store : Store)
    (h : store key = none)
    (hw : ∀ u ∈ ts, u ≤ t + config.windowMs)
    (hlen : ts.length + 1 ≤ config.maxAttempts) :
    (runChecks store key config (t :: ts)).2 key =
        some ⟨ts.length + 1, t + config.windowMs⟩ ∧
      ∀ i, i < ts.length + 1 →
        ((runChecks store key config (t :: ts)).1).get? i =
          some ⟨true, (config.maxAttempts : Int) - (i + 1), none⟩ := by
  have hstep :
      checkRateLimit store key config t =
        (⟨true, (config.maxAttempts : Int) - 1, none⟩,
         store.set key ⟨1, t + config.windowMs⟩) := by
    simp [checkRateLimit, h]
  have htail := runChecks_inWindow key config (t + config.windowMs) ts
    (store.set key ⟨1, t + config.windowMs⟩) 1
    (Store.set_same _ _ _) hw (by omega)
  constructor
  · show (runChecks _ key config (t :: ts)).2 key = _
    simp only [runChecks, hstep]
    rw [htail.1, show 1 + ts.length = ts.length + 1 from by omega]
  · intro i hi
    simp only [runChecks, hstep]
    match i with
    | 0 =>
        simp only [List.get?, Option.some.injEq, RateLimitResult.mk.injEq]
        refine ⟨trivial, ?_, trivial⟩
        push_cast
        ring
    | i + 1 =>
        simp only [List.get?]
        rw [htail.2 i (by omega)]
        simp only [Option.some.injEq, RateLimitResult.mk.injEq]
        refine ⟨trivial, ?_, trivial⟩
        push_cast
        ring

/-! ### Claim C1 -/

/-- C1: `checkRateLimit` meets the spec's contract.  A missing or expired
entry is replaced by `{count = 1, resetAt = now + windowMs}` with
`allowed = true, remaining = maxAttempts - 1`; an in-window entry at
`count ≥ maxAttempts` is denied with `remaining = 0`,
`retryAfter = ceil((resetAt - now)/1000)` and the store unmutated;
otherwise the count is incremented and `remaining = maxAttempts - count`.
Consequently, for a fresh key, the Nth check within one window
(N ≤ maxAttempts) is allowed with `remaining = maxAttempts - N` and the
(maxAttempts+1)th is denied with `retryAfter > 0`. -/
theorem checkRateLimit_contract (store : Store) (key : String)
    (config : RateLimitPolicy) (now : Nat) :
    ((store key = none ∨ ∃ e, store key = some e ∧ e.resetAt < now) →
      checkRateLimit store key config now =
        (⟨true, (config.maxAttempts : Int) - 1, none⟩,
         store.set key ⟨1, now + config.windowMs⟩)) ∧
    (∀ e, store key = some e → now ≤ e.resetAt →
      config.maxAttempts ≤ e.count →
      checkRateLimit store key config now =
        (⟨false, 0, some (ceilSeconds (e.resetAt - now))⟩, store)) ∧
    (∀ e, store key = some e → now ≤ e.resetAt →
      e.count < config.maxAttempts →
      checkRateLimit store key config now =
        (⟨true, (config.maxAttempts : Int) - (e.count + 1), none⟩,
         store.set key ⟨e.count + 1, e.resetAt⟩)) ∧
    (store key = none →
      ∀ t ts, (∀ v ∈ ts, v < t + config.windowMs) →
        (ts.length + 1 ≤ config.maxAttempts →
          ∀ N, 1 ≤ N → N ≤ ts.length + 1 →
            ((runChecks store key config (t :: ts)).1).get? (N - 1) =
              some ⟨true, (config.maxAttempts : Int) - N, none⟩) ∧
        (ts.length + 1 = config.maxAttempts →
          ∀ u, u < t + config.windowMs →
            ∃ r, (checkRateLimit ((runChecks store key config (t :: ts)).2)
                key config u).1 = ⟨false, 0, some r⟩ ∧ 0 < r)) := by
  refine ⟨?_, ?_, ?_, ?_⟩
  · rintro (h | ⟨e, he, hlt⟩)
    · simp [checkRateLimit, h]
    · simp [checkRateLimit, he, hlt]
  · intro e he hle hcount
    simp [checkRateLimit, he, Nat.not_lt.mpr hle, hcount]
  · intro e he hle hcount
    simp [checkRateLimit, he, Nat.not_lt.mpr hle, Nat.not_le.mpr hcount]
  · intro h t ts hw
    constructor
    · intro hlen N hN1 hN2
      have hres := (runChecks_fresh key config t ts store h
        (fun u hu => Nat.le_of_lt (hw u hu)) hlen).2 (N - 1) (by omega)
      rw [hres]
      simp only [Option.some.injEq, RateLimitResult.mk.injEq]
      refine ⟨trivial, ?_, trivial⟩
      omega
    · intro hfull u hu
      have hstore := (runChecks_fresh key config t ts store h
        (fun v hv => Nat.le_of_lt (hw v hv)) (by omega)).1
      refine ⟨ceilSeconds (t + config.windowMs - u), ?_, ?_⟩
      · have : ¬ t + config.windowMs < u := by omega
        simp [checkRateLimit, hstore, this, hfull]
      · simp only [ceilSeconds]
        omega

/-- Witness for C1: with the auth policy (5 attempts / 15 min) and a
fresh key, the 6th check of a window is denied with positive
`retryAfter`. -/
theorem checkRateLimit_contract_witness :
    ∃ r, (checkRateLimit ((runChecks Store.empty "ip" AUTH_RATE_LIMIT
        [0, 1, 2, 3, 4]).2) "ip" AUTH_RATE_LIMIT 5).1 =
      ⟨false, 0, some r⟩ ∧ 0 < r :=
  ((checkRateLimit_contract Store.empty "ip" AUTH_RATE_LIMIT 0).2.2.2 rfl
    0 [1, 2, 3, 4] (by decide)).2 (by decide) 5 (by decide)

/-! ### Claim C4 -/

/-- C4 counterexample: at exactly `now = resetAt` the generic
`checkRateLimit` does NOT treat the entry as absent.  With entry
`{count = 3, resetAt = 100}` a check at `now = 100` increments the count
to 4; it does not create a fresh `{count = 1, resetAt = now + windowMs}`
entry as the claim states. -/
theorem checkRateLimit_at_resetAt_counterexample :
    (checkRateLimit (Store.empty.set "k" ⟨3, 100⟩) "k" AUTH_RATE_LIMIT
        100).2 "k" = some ⟨4, 100⟩ ∧
    (checkRateLimit (Store.empty.set "k" ⟨3, 100⟩) "k" AUTH_RATE_LIMIT
        100).2 "k" ≠ some ⟨1, 100 + AUTH_RATE_LIMIT.windowMs⟩ := by
  decide

/-- C4 amended: the generic `checkRateLimit` replaces an entry with a
fresh `count = 1` exactly when `now > resetAt` (strictly); while
`now ≤ resetAt` (including at exactly `now = resetAt`) the entry is
in-window and is either left alone or incremented, never reset.  The
bespoke auth-endpoint counter, by contrast, does reset at `now ≥ resetAt`:
a failed attempt there is recorded as a fresh `count = 1` entry. -/
theorem resetAt_boundary_amended :
    (∀ (store : Store) (key : String) (config : RateLimitPolicy)
      (now : Nat) (e : RateLimitEntry), store key = some e →
      ((e.resetAt < now →
        (checkRateLimit store key config now).2 key =
          some ⟨1, now + config.windowMs⟩) ∧
       (now ≤ e.resetAt →
        ∀ e', (checkRateLimit store key config now).2 key = some e' →
          e' = e ∨ e' = ⟨e.count + 1, e.resetAt⟩))) ∧
    (∀ (attempts : Store) (sessions : SessionStore)
      (ip password serverPassword tok : String) (now : Nat)
      (e : RateLimitEntry), attempts ip = some e → e.resetAt ≤ now →
      password ≠ serverPassword →
      (authPost attempts sessions ip password serverPassword tok
          now).2.1 ip = some ⟨1, now + AUTH_RATE_LIMIT.windowMs⟩) := by
  constructor
  · intro store key config now e he
    constructor
    · intro hlt
      simp [checkRateLimit, he, hlt, Store.set]
    · intro hle e' he'
      by_cases hcount : config.maxAttempts ≤ e.count
      · left
        have hst : (checkRateLimit store key config now).2 = store := by
          simp [checkRateLimit, he, Nat.not_lt.mpr hle, hcount]
        rw [hst, he] at he'
        exact (Option.some.inj he').symm
      · right
        have hst : (checkRateLimit store key config now).2 =
            store.set key ⟨e.count + 1, e.resetAt⟩ := by
          simp [checkRateLimit, he, Nat.not_lt.mpr hle, hcount]
        rw [hst, Store.set_same] at he'
        exact (Option.some.inj he').symm
  · intro attempts sessions ip password serverPassword tok now e he hle hpw
    simp [authPost, he, Nat.not_lt.mpr hle, authPasswordPhase, hpw,
      Store.set]

/-- Witness for C4 amended: a check one tick past `resetAt` resets the
generic counter, and a failed auth attempt at exactly `resetAt` is
recorded as attempt 1. -/
theorem resetAt_boundary_amended_witness :
    (checkRateLimit (Store.empty.set "k" ⟨2, 100⟩) "k" AUTH_RATE_LIMIT
        101).2 "k" = some ⟨1, 101 + AUTH_RATE_LIMIT.windowMs⟩ ∧
    (authPost (Store.empty.set "ip" ⟨4, 100⟩) SessionStore.empty "ip" "a"
        "b" "t" 100).2.1 "ip" = some ⟨1, 100 + AUTH_RATE_LIMIT.windowMs⟩ :=
  ⟨(resetAt_boundary_amended.1 (Store.empty.set "k" ⟨2, 100⟩) "k"
      AUTH_RATE_LIMIT 101 ⟨2, 100⟩ (by decide)).1 (by decide),
   resetAt_boundary_amended.2 (Store.empty.set "ip" ⟨4, 100⟩)
     SessionStore.empty "ip" "a" "b" "t" 100 ⟨4, 100⟩ (by decide)
     (by decide) (by decide)⟩

/-! ### Claim C9 -/

/-- The count invariant of a rate-limit store: every entry has
`1 ≤ count ≤ maxAttempts`. -/
def StoreInv (maxAttempts : Nat) (store : Store) : Prop :=
  ∀ k e, store k = some e → 1 ≤ e.count ∧ e.count ≤ maxAttempts

lemma storeInv_set {m : Nat} {s : Store} (hinv : StoreInv m s)
    (k : String) {c r : Nat} (hc1 : 1 ≤ c) (hc2 : c ≤ m) :
    StoreInv m (s.set k ⟨c, r⟩) := by
  intro k' e h
  simp only [Store.set] at h
  split_ifs at h with hk
  · cases Option.some.inj h
    exact ⟨hc1, hc2⟩
  · exact hinv k' e h

lemma storeInv_del {m : Nat} {s : Store} (hinv : StoreInv m s)
    (k : String) : StoreInv m (s.del k) := by
  intro k' e h
  simp only [Store.del] at h
  split_ifs at h with hk
  exact hinv k' e h

lemma storeInv_authPasswordPhase {s : Store} {sessions : SessionStore}
    {ip password serverPassword tok : String} {now : Nat}
    (hinv : StoreInv AUTH_RATE_LIMIT.maxAttempts s) :
    StoreInv AUTH_RATE_LIMIT.maxAttempts
      (authPasswordPhase s sessions ip password serverPassword tok
        now).2.1 := by
  unfold authPasswordPhase
  split_ifs
  · exact storeInv_del hinv ip
  · exact hinv

/-- C9: in every reachable state, every entry of every rate-limit store
has `1 ≤ count ≤ maxAttempts`: the invariant holds of the empty store and
is preserved by `checkRateLimit` (for any policy with
`maxAttempts ≥ 1`, which holds of all three policies), by the bespoke
`/api/auth` bookkeeping, and by the periodic sweep. -/
theorem rateLimit_count_invariant :
    (∀ m, StoreInv m Store.empty) ∧
    (1 ≤ AUTH_RATE_LIMIT.maxAttempts ∧ 1 ≤ ANALYZE_RATE_LIMIT.maxAttempts ∧
      1 ≤ GLOBAL_API_RATE_LIMIT.maxAttempts) ∧
    (∀ (store : Store) (key : String) (config : RateLimitPolicy)
      (now : Nat), 1 ≤ config.maxAttempts →
      StoreInv config.maxAttempts store →
      StoreInv config.maxAttempts (checkRateLimit store key config now).2) ∧
    (∀ (attempts : Store) (sessions : SessionStore)
      (ip password serverPassword tok : String) (now : Nat),
      StoreInv AUTH_RATE_LIMIT.maxAttempts attempts →
      StoreInv AUTH_RATE_LIMIT.maxAttempts
        (authPost attempts sessions ip password serverPassword tok
          now).2.1) ∧
    (∀ (store : Store) (now m : Nat), StoreInv m store →
      StoreInv m (sweep store now)) := by
  refine ⟨?_, by decide, ?_, ?_, ?_⟩
  · intro m k e h
    cases h
  · intro store key config now hmax hinv
    cases hsk : store key with
    | none =>
        simp only [checkRateLimit, hsk]
        exact storeInv_set hinv key (by omega) hmax
    | some entry =>
        simp only [checkRateLimit, hsk]
        split_ifs with h1 h2
        · exact storeInv_set hinv key (by omega) hmax
        · exact hinv
        · exact storeInv_set hinv key (by omega)
            (by simp only [ge_iff_le, not_le] at h2; omega)
  · intro attempts sessions ip password serverPassword tok now hinv
    cases hsk : attempts ip with
    | none =>
        simp only [authPost, hsk]
        exact storeInv_authPasswordPhase
          (storeInv_set hinv ip (by omega) (by decide))
    | some attempt =>
        simp only [authPost, hsk]
        split_ifs with h1 h2
        · exact hinv
        · have := (hinv ip attempt hsk).2
          simp only [ge_iff_le, not_le] at h2
          exact storeInv_authPasswordPhase
            (storeInv_set hinv ip (by omega) (by omega))
        · exact storeInv_authPasswordPhase
            (storeInv_set hinv ip (by omega) (by decide))
  · intro store now m hinv k e h
    cases hsk : store k with
    | none => simp [sweep, hsk] at h
    | some e' =>
        simp only [sweep, hsk] at h
        split_ifs at h
        cases h
        exact hinv k e hsk

/-- Witness for C9: the invariant holds concretely after one check on a
fresh store with the auth policy. -/
theorem rateLimit_count_invariant_witness :
    StoreInv AUTH_RATE_LIMIT.maxAttempts
      (checkRateLimit Store.empty "ip" AUTH_RATE_LIMIT 0).2 :=
  rateLimit_count_invariant.2.2.1 Store.empty "ip" AUTH_RATE_LIMIT 0
    (by decide) (rateLimit_count_invariant.1 AUTH_RATE_LIMIT.maxAttempts)

/-! ### Claim C3 -/

/-- C3: the auth middleware accepts a bearer token iff it is present in
the session store and `now ≤ expiry` (so a request at exactly the expiry
instant succeeds); on an absent or expired token it answers
`Session expired` and removes the token from the store (lazy GC); a
missing or non-`Bearer` header answers `Unauthorized`. -/
theorem requireAuth_spec (sessions : SessionStore) (now : Nat) :
    (requireAuth sessions none now = (.unauthorized, sessions)) ∧
    (∀ h, startsWithBearer h = false →
      requireAuth sessions (some h) now = (.unauthorized, sessions)) ∧
    (∀ h, startsWithBearer h = true →
      (((requireAuth sessions (some h) now).1 = .ok (sliceBearer h)) ↔
        (∃ e, sessions (sliceBearer h) = some e ∧ now ≤ e)) ∧
      ((∃ e, sessions (sliceBearer h) = some e ∧ now ≤ e) →
        requireAuth sessions (some h) now =
          (.ok (sliceBearer h), sessions)) ∧
      ((¬ ∃ e, sessions (sliceBearer h) = some e ∧ now ≤ e) →
        (requireAuth sessions (some h) now).1 = .sessionExpired ∧
        (requireAuth sessions (some h) now).2 (sliceBearer h) = none)) := by
  refine ⟨rfl, ?_, ?_⟩
  · intro h hb
    simp [requireAuth, hb]
  · intro h hb
    refine ⟨?_, ?_, ?_⟩
    · constructor
      · intro hok
        cases hs : sessions (sliceBearer h) with
        | none => simp [requireAuth, hb, hs] at hok
        | some expiry =>
            by_cases hexp : now > expiry
            · simp [requireAuth, hb, hs, hexp] at hok
            · exact ⟨expiry, rfl, Nat.not_lt.mp hexp⟩
      · rintro ⟨e, hs, hle⟩
        simp [requireAuth, hb, hs, Nat.not_lt.mpr hle]
    · rintro ⟨e, hs, hle⟩
      simp [requireAuth, hb, hs, Nat.not_lt.mpr hle]
    · intro hno
      cases hs : sessions (sliceBearer h) with
      | none =>
          constructor
          · simp [requireAuth, hb, hs]
          · simp [requireAuth, hb, hs, SessionStore.del]
      | some expiry =>
          have hexp : expiry < now := by
            by_contra hc
            exact hno ⟨expiry, hs, Nat.not_lt.mp hc⟩
          constructor
          · simp [requireAuth, hb, hs, hexp]
          · simp [requireAuth, hb, hs, hexp, SessionStore.del]

/-- Witness for C3: a request at exactly the expiry instant is accepted
and leaves the store unchanged. -/
theorem requireAuth_spec_witness :
    requireAuth (SessionStore.empty.set "tok" 50) (some "Bearer tok") 50 =
      (.ok (sliceBearer "Bearer tok"), SessionStore.empty.set "tok" 50) :=
  ((requireAuth_spec (SessionStore.empty.set "tok" 50) 50).2.2
    "Bearer tok" (by decide)).2.1 ⟨50, by decide, by decide⟩

/-! ### Claim C10 -/

/-- C10: a correct password cannot bypass the auth rate limit.  If the
caller's entry is in-window at `count ≥ maxAttempts`, `/api/auth` with
the correct password answers 429, issues no token, and leaves both the
attempt store and the session store unchanged. -/
theorem correct_password_rate_limited (attempts : Store)
    (sessions : SessionStore) (ip serverPassword tok : String) (now : Nat)
    (e : RateLimitEntry) (he : attempts ip = some e)
    (hwin : now < e.resetAt)
    (hcount : AUTH_RATE_LIMIT.maxAttempts ≤ e.count) :
    authPost attempts sessions ip serverPassword serverPassword tok now =
      (⟨429, false, none, some (ceilSeconds (e.resetAt - now))⟩,
       attempts, sessions) := by
  simp [authPost, he, hwin, hcount]

/-- Witness for C10: a saturated caller presenting the right password at
`now = 40` inside the window gets 429 and no session. -/
theorem correct_password_rate_limited_witness :
    authPost (Store.empty.set "ip" ⟨5, 100⟩) SessionStore.empty "ip"
        "secret" "secret" "tok" 40 =
      (⟨429, false, none, some (ceilSeconds (100 - 40))⟩,
       Store.empty.set "ip" ⟨5, 100⟩, SessionStore.empty) :=
  correct_password_rate_limited (Store.empty.set "ip" ⟨5, 100⟩)
    SessionStore.empty "ip" "secret" "tok" 40 ⟨5, 100⟩
    (by decide) (by decide) (by decide)

/-! ### Claim C5 -/

/-- `n` consecutive failed `/api/auth` requests (wrong password) from the
same client, all at time `now`: the state after each request feeds the
next. -/
def authFailN (s : Store × SessionStore)
    (ip badPassword serverPassword tok : String) (now : Nat) :
    Nat → Store × SessionStore
  | 0 => s
  | n + 1 =>
      let r := authPost s.1 s.2 ip badPassword serverPassword tok now
      authFailN (r.2.1, r.2.2) ip badPassword serverPassword tok now n

/-- A failed attempt from a caller with no current entry answers 401 and
records a fresh `count = 1` entry, leaving the sessions alone. -/
lemma authPost_fresh_fail (attempts : Store) (sessions : SessionStore)
    (ip badPassword serverPassword tok : String) (now : Nat)
    (h : attempts ip = none) (hpw : badPassword ≠ serverPassword) :
    (authPost attempts sessions ip badPassword serverPassword tok
        now).1.status = 401 ∧
    (authPost attempts sessions ip badPassword serverPassword tok
        now).2.1 ip = some ⟨1, now + AUTH_RATE_LIMIT.windowMs⟩ ∧
    (authPost attempts sessions ip badPassword serverPassword tok
        now).2.2 = sessions := by
  refine ⟨?_, ?_, ?_⟩ <;>
    simp [authPost, h, authPasswordPhase, hpw, Store.set]

/-- Failed attempts inside the window accumulate one count each and do
not touch the session store. -/
lemma authFailN_inWindow (ip badPassword serverPassword tok : String)
    (hpw : badPassword ≠ serverPassword) (now : Nat) :
    ∀ (n : Nat) (s : Store × SessionStore) (c : Nat),
      s.1 ip = some ⟨c, now + AUTH_RATE_LIMIT.windowMs⟩ →
      c + n ≤ AUTH_RATE_LIMIT.maxAttempts →
      (authFailN s ip badPassword serverPassword tok now n).1 ip =
          some ⟨c + n, now + AUTH_RATE_LIMIT.windowMs⟩ ∧
        (authFailN s ip badPassword serverPassword tok now n).2 = s.2 := by
  intro n
  induction n with
  | zero => intro s c h _; exact ⟨h, rfl⟩
  | succ n ih =>
      intro s c h hc
      have hwin : now < now + AUTH_RATE_LIMIT.windowMs := by
        simp [AUTH_RATE_LIMIT]
      have hcount : ¬ AUTH_RATE_LIMIT.maxAttempts ≤ c := by
        simp only [AUTH_RATE_LIMIT] at hc ⊢; omega
      have hstep :
          authPost s.1 s.2 ip badPassword serverPassword tok now =
            (⟨401, false, none, none⟩,
             s.1.set ip ⟨c + 1, now + AUTH_RATE_LIMIT.windowMs⟩, s.2) := by
        simp [authPost, h, hwin, hcount, authPasswordPhase, hpw]
      have ihr := ih
        (s.1.set ip ⟨c + 1, now + AUTH_RATE_LIMIT.windowMs⟩, s.2) (c + 1)
        (Store.set_same _ _ _) (by omega)
      simp only [authFailN, hstep]
      rw [ihr.1, ihr.2,
        show c + 1 + n = c + (n + 1) from by omega]
      exact ⟨rfl, rfl⟩

/-- C5: a successful `/api/auth` call clears the caller's entire attempt
history.  After `N < maxAttempts` failed attempts in one window, a call
with the correct password succeeds (200), deletes the caller's entry, and
an immediately following bad-password request is recorded as attempt #1
(fresh entry with `count = 1`). -/
theorem auth_success_clears_attempts (attempts₀ : Store)
    (sessions₀ : SessionStore) (ip badPassword serverPassword tok tok' : String)
    (hpw : badPassword ≠ serverPassword) (now now' : Nat) (N : Nat)
    (h0 : attempts₀ ip = none) (hN : N < AUTH_RATE_LIMIT.maxAttempts) :
    (authPost (authFailN (attempts₀, sessions₀) ip badPassword
        serverPassword tok now N).1
      (authFailN (attempts₀, sessions₀) ip badPassword serverPassword tok
        now N).2
      ip serverPassword serverPassword tok now).1.status = 200 ∧
    (authPost (authFailN (attempts₀, sessions₀) ip badPassword
        serverPassword tok now N).1
      (authFailN (attempts₀, sessions₀) ip badPassword serverPassword tok
        now N).2
      ip serverPassword serverPassword tok now).2.1 ip = none ∧
    ((authPost
        (authPost (authFailN (attempts₀, sessions₀) ip badPassword
            serverPassword tok now N).1
          (authFailN (attempts₀, sessions₀) ip badPassword serverPassword
            tok now N).2
          ip serverPassword serverPassword tok now).2.1
        (authPost (authFailN (attempts₀, sessions₀) ip badPassword
            serverPassword tok now N).1
          (authFailN (attempts₀, sessions₀) ip badPassword serverPassword
            tok now N).2
          ip serverPassword serverPassword tok now).2.2
        ip badPassword serverPassword tok' now').1.status = 401 ∧
      (authPost
        (authPost (authFailN (attempts₀, sessions₀) ip badPassword
            serverPassword tok now N).1
          (authFailN (attempts₀, sessions₀) ip badPassword serverPassword
            tok now N).2
          ip serverPassword serverPassword tok now).2.1
        (authPost (authFailN (attempts₀, sessions₀) ip badPassword
            serverPassword tok now N).1
          (authFailN (attempts₀, sessions₀) ip badPassword serverPassword
            tok now N).2
          ip serverPassword serverPassword tok now).2.2
        ip badPassword serverPassword tok' now').2.1 ip =
        some ⟨1, now' + AUTH_RATE_LIMIT.windowMs⟩) := by
  have hwin : now < now + AUTH_RATE_LIMIT.windowMs := by
    simp [AUTH_RATE_LIMIT]
  -- the state after the N failures
  have hfail :
      (authFailN (attempts₀, sessions₀) ip badPassword serverPassword tok
          now N).1 ip =
        if N = 0 then none
        else some ⟨N, now + AUTH_RATE_LIMIT.windowMs⟩ := by
    cases N with
    | zero => simpa [authFailN] using h0
    | succ m =>
        have hstep :
            authPost attempts₀ sessions₀ ip badPassword serverPassword tok
                now =
              (⟨401, false, none, none⟩,
               attempts₀.set ip ⟨1, now + AUTH_RATE_LIMIT.windowMs⟩,
               sessions₀) := by
          simp [authPost, h0, authPasswordPhase, hpw]
        have := (authFailN_inWindow ip badPassword serverPassword tok hpw
          now m
          (attempts₀.set ip ⟨1, now + AUTH_RATE_LIMIT.windowMs⟩, sessions₀)
          1 (Store.set_same _ _ _)
          (by simp only [AUTH_RATE_LIMIT] at hN ⊢; omega)).1
        simp only [authFailN, hstep]
        rw [this]
        simp [Nat.add_comm]
  -- the successful call deletes the entry
  have hsucc :
      (authPost (authFailN (attempts₀, sessions₀) ip badPassword
          serverPassword tok now N).1
        (authFailN (attempts₀, sessions₀) ip badPassword serverPassword
          tok now N).2
        ip serverPassword serverPassword tok now).1.status = 200 ∧
      (authPost (authFailN (attempts₀, sessions₀) ip badPassword
          serverPassword tok now N).1
        (authFailN (attempts₀, sessions₀) ip badPassword serverPassword
          tok now N).2
        ip serverPassword serverPassword tok now).2.1 ip = none := by
    cases hN0 : N with
    | zero =>
        rw [hN0] at hfail
        simp only [if_pos rfl] at hfail
        constructor
        · simp [authPost, hfail, authPasswordPhase]
        · simp [authPost, hfail, authPasswordPhase, Store.del]
    | succ m =>
        rw [hN0] at hfail
        simp only [Nat.succ_ne_zero, if_false] at hfail
        have hcount : ¬ AUTH_RATE_LIMIT.maxAttempts ≤ m + 1 := by
          rw [hN0] at hN
          omega
        constructor
        · simp [authPost, hfail, hwin, hcount, authPasswordPhase]
        · simp [authPost, hfail, hwin, hcount, authPasswordPhase,
            Store.del]
  refine ⟨hsucc.1, hsucc.2,
    (authPost_fresh_fail _ _ ip badPassword serverPassword tok' now'
      hsucc.2 hpw).1,
    (authPost_fresh_fail _ _ ip badPassword serverPassword tok' now'
      hsucc.2 hpw).2.1⟩

/-- Witness for C5: two failures, one success, then a bad attempt at
`now = 5` is recorded as attempt #1. -/
theorem auth_success_clears_attempts_witness :
    (authPost
      (authPost (authFailN (Store.empty, SessionStore.empty) "ip" "x" "pw"
          "t" 0 2).1
        (authFailN (Store.empty, SessionStore.empty) "ip" "x" "pw" "t" 0
          2).2
        "ip" "pw" "pw" "t" 0).2.1
      (authPost (authFailN (Store.empty, SessionStore.empty) "ip" "x" "pw"
          "t" 0 2).1
        (authFailN (Store.empty, SessionStore.empty) "ip" "x" "pw" "t" 0
          2).2
        "ip" "pw" "pw" "t" 0).2.2
      "ip" "x" "pw" "t2" 5).2.1 "ip" =
      some ⟨1, 5 + AUTH_RATE_LIMIT.windowMs⟩ :=
  (auth_success_clears_attempts Store.empty SessionStore.empty "ip" "x"
    "pw" "t" "t2" (by decide) 0 5 2 rfl (by decide)).2.2.2

/-! ### Claim C6 -/

/-- C6: whenever the analyze-specific rate limit denies a request, the
handler answers 429 with a `retryAfter` value and the external AI
collaborator is not called; in particular, from a fresh key, after 10
calls within one hour the 11th call within the window is denied this
way with `retryAfter > 0`. -/
theorem analyze_denied_skips_external (clientIp : String)
    (body : AnalyzeBody) (apiKey : Option String) (g : GeminiOutcome) :
    (∀ (attempts : Store) (now : Nat) (e : RateLimitEntry),
      attempts clientIp = some e → now ≤ e.resetAt →
      ANALYZE_RATE_LIMIT.maxAttempts ≤ e.count →
      analyzePost attempts clientIp body apiKey g now =
        (⟨429,
          some "Analysis rate limit exceeded. Maximum 10 analyses per hour.",
          some (ceilSeconds (e.resetAt - now)), none⟩, false, attempts)) ∧
    (∀ (attempts : Store) (t : Nat) (ts : List Nat),
      attempts clientIp = none →
      (∀ v ∈ ts, v < t + ANALYZE_RATE_LIMIT.windowMs) →
      ts.length + 1 = ANALYZE_RATE_LIMIT.maxAttempts →
      ∀ u, u < t + ANALYZE_RATE_LIMIT.windowMs →
        (analyzePost ((runChecks attempts clientIp ANALYZE_RATE_LIMIT
            (t :: ts)).2) clientIp body apiKey g u).1.status = 429 ∧
        (∃ r, 0 < r ∧
          (analyzePost ((runChecks attempts clientIp ANALYZE_RATE_LIMIT
              (t :: ts)).2) clientIp body apiKey g u).1.retryAfter =
            some r) ∧
        (analyzePost ((runChecks attempts clientIp ANALYZE_RATE_LIMIT
            (t :: ts)).2) clientIp body apiKey g u).2.1 = false) := by
  have hdenied : ∀ (attempts : Store) (now : Nat) (e : RateLimitEntry),
      attempts clientIp = some e → now ≤ e.resetAt →
      ANALYZE_RATE_LIMIT.maxAttempts ≤ e.count →
      analyzePost attempts clientIp body apiKey g now =
        (⟨429,
          some "Analysis rate limit exceeded. Maximum 10 analyses per hour.",
          some (ceilSeconds (e.resetAt - now)), none⟩, false, attempts) := by
    intro attempts now e he hle hcount
    have hcheck : checkRateLimit attempts clientIp ANALYZE_RATE_LIMIT now =
        (⟨false, 0, some (ceilSeconds (e.resetAt - now))⟩, attempts) := by
      simp [checkRateLimit, he, Nat.not_lt.mpr hle, hcount]
    simp [analyzePost, hcheck]
  refine ⟨hdenied, ?_⟩
  intro attempts t ts h0 hw hfull u hu
  have hstore := (runChecks_fresh clientIp ANALYZE_RATE_LIMIT t ts attempts
    h0 (fun v hv => Nat.le_of_lt (hw v hv)) (by omega)).1
  have := hdenied ((runChecks attempts clientIp ANALYZE_RATE_LIMIT
      (t :: ts)).2) u ⟨ts.length + 1, t + ANALYZE_RATE_LIMIT.windowMs⟩
    hstore
    (show u ≤ t + ANALYZE_RATE_LIMIT.windowMs from by omega)
    (show ANALYZE_RATE_LIMIT.maxAttempts ≤ ts.length + 1 from by omega)
  refine ⟨by rw [this], ⟨ceilSeconds (t + ANALYZE_RATE_LIMIT.windowMs - u),
    ?_, by rw [this]⟩, by rw [this]⟩
  simp only [ceilSeconds]
  omega

/-- Witness for C6: concretely, the 11th call within the hour is denied
and the external collaborator is not called. -/
theorem analyze_denied_skips_external_witness :
    (analyzePost ((runChecks Store.empty "ip" ANALYZE_RATE_LIMIT
        [0, 1, 2, 3, 4, 5, 6, 7, 8, 9]).2) "ip"
      ⟨some [⟨"image/png", "d"⟩], some 1⟩ (some "key")
      (.success true 0 "r" "doc") 10).1.status = 429 ∧
    (analyzePost ((runChecks Store.empty "ip" ANALYZE_RATE_LIMIT
        [0, 1, 2, 3, 4, 5, 6, 7, 8, 9]).2) "ip"
      ⟨some [⟨"image/png", "d"⟩], some 1⟩ (some "key")
      (.success true 0 "r" "doc") 10).2.1 = false :=
  have h := (analyze_denied_skips_external "ip"
    ⟨some [⟨"image/png", "d"⟩], some 1⟩ (some "key")
    (.success true 0 "r" "doc")).2 Store.empty 0
    [1, 2, 3, 4, 5, 6, 7, 8, 9] rfl (by decide) (by decide) 10 (by decide)
  ⟨h.1, h.2.2⟩

/-! ### Claim C7 -/

/-- C7 counterexample: with a valid body and a missing API key the
Express handler answers 500 with message `API key not configured` — not
the fixed generic message — so configuration state is echoed to the
caller, contrary to the claim. -/
theorem analyze_error_message_counterexample :
    (analyzePost Store.empty "ip" ⟨some [⟨"image/png", "d"⟩], some 2⟩ none
        (.success true 0 "r" "w") 0).1 =
      ⟨500, some "API key not configured", none, none⟩ ∧
    some "API key not configured" ≠
      some "Failed to analyze documents. Please try again." ∧
    some "API key not configured" ≠
      some "Failed to analyze documents" := by
  refine ⟨by decide, by decide, by decide⟩

/-- C7 amended: in the Express handler, failures of the external call
(network error, malformed collaborator JSON) are flattened to the fixed
message `Failed to analyze documents. Please try again.` — the response
is a constant independent of the internal error message, so no internal
detail leaks; a missing API key, however, is answered before the external
call with 500 `API key not configured`; and the Vercel handler variant
appends the internal error message to its 500 body. -/
theorem analyze_error_flattening (attempts : Store) (ip : String)
    (files : List FileData) (hs : Int) (key : String) (now : Nat)
    (hfiles : files ≠ []) (hhs : 1 ≤ hs)
    (hallowed :
      (checkRateLimit attempts ip ANALYZE_RATE_LIMIT now).1.allowed =
        true) :
    (∀ msg, analyzePost attempts ip ⟨some files, some hs⟩ (some key)
        (.failure msg) now =
      (⟨500, some "Failed to analyze documents. Please try again.",
        none, none⟩, true,
       (checkRateLimit attempts ip ANALYZE_RATE_LIMIT now).2)) ∧
    (∀ g, analyzePost attempts ip ⟨some files, some hs⟩ none g now =
      (⟨500, some "API key not configured", none, none⟩, false,
       (checkRateLimit attempts ip ANALYZE_RATE_LIMIT now).2)) ∧
    (∀ msg, ∃ p, (vercelCatchResponse msg).2 = p ++ msg ∧
      (vercelCatchResponse msg).1 = 500) := by
  have hempty : files.isEmpty = false := by
    cases files with
    | nil => exact absurd rfl hfiles
    | cons a l => rfl
  have hlt : ¬ hs < 1 := Int.not_lt.mpr hhs
  refine ⟨?_, ?_, ?_⟩
  · intro msg
    simp [analyzePost, hallowed, hempty, hlt]
  · intro g
    cases g <;> simp [analyzePost, hallowed, hempty, hlt]
  · intro msg
    exact ⟨"Failed to analyze documents: ", rfl, rfl⟩

/-- Witness for C7 amended: the flattened failure response at a concrete
state, independent of the internal message. -/
theorem analyze_error_flattening_witness :
    analyzePost Store.empty "ip" ⟨some [⟨"image/png", "d"⟩], some 3⟩
        (some "key") (.failure "ECONNRESET upstream [10.0.0.7]") 0 =
      (⟨500, some "Failed to analyze documents. Please try again.",
        none, none⟩, true,
       (checkRateLimit Store.empty "ip" ANALYZE_RATE_LIMIT 0).2) :=
  (analyze_error_flattening Store.empty "ip" [⟨"image/png", "d"⟩] 3 "key"
    0 (by decide) (by decide) (by decide)).1
    "ECONNRESET upstream [10.0.0.7]"

/-! ### Claim C8 -/

/-- C8 counterexample: a request with an empty `files` list does NOT get
400 in every auth/rate-limit state — a rate-limited caller gets 429 (the
analyze rate-limit check runs before body validation) and an
unauthenticated caller gets 401. -/
theorem analyze_validation_counterexample :
    (analyzePost (Store.empty.set "ip" ⟨10, 100⟩) "ip" ⟨some [], some 3⟩
        (some "k") (.failure "x") 50).1.status = 429 ∧
    (analyzePost (Store.empty.set "ip" ⟨10, 100⟩) "ip" ⟨some [], some 3⟩
        (some "k") (.failure "x") 50).1.status ≠ 400 ∧
    (analyzeRoute SessionStore.empty Store.empty none "ip"
        ⟨some [], some 3⟩ (some "k") (.failure "x") 0).1.status = 401 := by
  refine ⟨by decide, by decide, by decide⟩

/-- C8 amended: once the request is authenticated and the analyze rate
limit allows it, a missing/non-list/empty `files` field gets 400
`No files provided.` and a missing/non-numeric/`< 1` `householdSize`
gets 400 `Valid household size is required.`, with no external call; but
a rate-limited request gets 429 and an unauthenticated one 401 even with
an invalid body. -/
theorem analyze_validation_amended (attempts : Store) (ip : String)
    (apiKey : Option String) (g : GeminiOutcome) (now : Nat)
    (hallowed :
      (checkRateLimit attempts ip ANALYZE_RATE_LIMIT now).1.allowed =
        true) :
    (∀ hs, analyzePost attempts ip ⟨none, hs⟩ apiKey g now =
      (⟨400, some "No files provided.", none, none⟩, false,
       (checkRateLimit attempts ip ANALYZE_RATE_LIMIT now).2)) ∧
    (∀ hs, analyzePost attempts ip ⟨some [], hs⟩ apiKey g now =
      (⟨400, some "No files provided.", none, none⟩, false,
       (checkRateLimit attempts ip ANALYZE_RATE_LIMIT now).2)) ∧
    (∀ files, files ≠ [] →
      analyzePost attempts ip ⟨some files, none⟩ apiKey g now =
        (⟨400, some "Valid household size is required.", none, none⟩,
         false, (checkRateLimit attempts ip ANALYZE_RATE_LIMIT now).2)) ∧
    (∀ files (hs : Int), files ≠ [] → hs < 1 →
      analyzePost attempts ip ⟨some files, some hs⟩ apiKey g now =
        (⟨400, some "Valid household size is required.", none, none⟩,
         false, (checkRateLimit attempts ip ANALYZE_RATE_LIMIT now).2)) := by
  refine ⟨?_, ?_, ?_, ?_⟩
  · intro hs
    simp [analyzePost, hallowed]
  · intro hs
    simp [analyzePost, hallowed]
  · intro files hfiles
    have hempty : files.isEmpty = false := by
      cases files with
      | nil => exact absurd rfl hfiles
      | cons a l => rfl
    simp [analyzePost, hallowed, hempty]
  · intro files hs hfiles hlt
    have hempty : files.isEmpty = false := by
      cases files with
      | nil => exact absurd rfl hfiles
      | cons a l => rfl
    simp [analyzePost, hallowed, hempty, hlt]

/-- Witness for C8 amended: an authenticated, non-rate-limited request
with an empty file list gets 400. -/
theorem analyze_validation_amended_witness :
    analyzePost Store.empty "ip" ⟨some [], some 3⟩ (some "k")
        (.failure "x") 0 =
      (⟨400, some "No files provided.", none, none⟩, false,
       (checkRateLimit Store.empty "ip" ANALYZE_RATE_LIMIT 0).2) :=
  (analyze_validation_amended Store.empty "ip" (some "k") (.failure "x") 0
    (by decide)).2.1 (some 3)

/-! ### Claim C2 -/

/-- C2 counterexample: the spec's dollar values do not hold in every code
path that computes FPL values — the Vercel handler path
(`src/api/analyze.ts` with `src/constants.ts`) computes
`povertyLevel = 15650` for household size 1, not 15060, and 59650 for
size 9, not 58100. -/
theorem fpl_schedule_counterexample :
    povertyLevelVercel 1 = 15650 ∧ (15650 : Int) ≠ 15060 ∧
    povertyLevelVercel 9 = 59650 ∧ (59650 : Int) ≠ 58100 := by
  refine ⟨by decide, by decide, by decide, by decide⟩

/-- C2 amended: the Express server path matches the spec's FPL schedule —
direct lookup for `householdSize ≤ 8`, `base(8) + 5380·(n−8)` above,
threshold `= 2 × level`, with 15060/30120 at size 1, 52720/105440 at 8
and 58100/116200 at 9, and its 200 response carries exactly these — while
the Vercel handler path uses the `src/constants.ts` schedule
(15650 … 54150, increment 5500) and so computes different dollar values. -/
theorem fpl_schedule_amended :
    (povertyLevelServer 1 = 15060 ∧ povertyLevelServer 1 * 2 = 30120) ∧
    (povertyLevelServer 8 = 52720 ∧ povertyLevelServer 8 * 2 = 105440) ∧
    (povertyLevelServer 9 = 58100 ∧ povertyLevelServer 9 * 2 = 116200) ∧
    (∀ hs : Int, hs ≤ 8 →
      povertyLevelServer hs = FEDERAL_POVERTY_LEVELS_server hs) ∧
    (∀ hs : Int, 8 < hs →
      povertyLevelServer hs =
        FEDERAL_POVERTY_LEVELS_server 8 +
          FPL_ADDITIONAL_PERSON_AMOUNT_server * (hs - 8)) ∧
    (∀ (attempts : Store) (ip : String) (files : List FileData)
      (hs : Int) (key reasoning documentType : String)
      (isEligible : Bool) (annualIncome : Int) (now : Nat),
      files ≠ [] → 1 ≤ hs →
      (checkRateLimit attempts ip ANALYZE_RATE_LIMIT now).1.allowed =
        true →
      (analyzePost attempts ip ⟨some files, some hs⟩ (some key)
          (.success isEligible annualIncome reasoning documentType)
          now).1.result =
        some ⟨isEligible, annualIncome, reasoning, documentType, hs,
          povertyLevelServer hs, povertyLevelServer hs * 2⟩) ∧
    (povertyLevelVercel 1 = 15650 ∧ povertyLevelVercel 8 = 54150 ∧
      povertyLevelVercel 9 = 59650) := by
  refine ⟨by decide, by decide, by decide, ?_, ?_, ?_, by decide⟩
  · intro hs hle
    simp [povertyLevelServer, hle]
  · intro hs hgt
    simp [povertyLevelServer, Int.not_le.mpr hgt]
  · intro attempts ip files hs key reasoning documentType isEligible
      annualIncome now hfiles hhs hallowed
    have hempty : files.isEmpty = false := by
      cases files with
      | nil => exact absurd rfl hfiles
      | cons a l => rfl
    simp [analyzePost, hallowed, hempty, Int.not_lt.mpr hhs]

/-- Witness for C2 amended: a concrete 200 response of the Express
handler carries the server schedule's values for household size 9. -/
theorem fpl_schedule_amended_witness :
    (analyzePost Store.empty "ip" ⟨some [⟨"image/png", "d"⟩], some 9⟩
        (some "key") (.success true 40000 "r" "W-2") 0).1.result =
      some ⟨true, 40000, "r", "W-2", 9, povertyLevelServer 9,
        povertyLevelServer 9 * 2⟩ :=
  (fpl_schedule_amended).2.2.2.2.2.1 Store.empty "ip" [⟨"image/png", "d"⟩]
    9 "key" "r" "W-2" true 40000 0 (by decide) (by decide) (by decide)

end IncomeVerifier
